import Mathlib

/-!
Verification of the mobile-attendance repository against its specification.

The repository's single source file (`src/app/models.py`) declares data
schemas: `User`, `AttendanceRecord`, `LocationValidation` (a geofence zone),
request/response shapes, and the converter
`AttendanceRecordResponse.from_attendance_record`.  The geofence validation
decision procedure described by the specification is not present in the
source; following the specification it is modelled here explicitly, and all
definitions carrying a doc comment starting with `Modelled from the spec:`
come from the specification's words rather than from source code.
-/

/-- Modelled from the spec: a submitted GPS coordinate.  Latitude in
−90..90, longitude in −180..180, optional accuracy in meters.  The range
invariant is the separate predicate `coordInRange`. -/
structure Coordinate where
  latitude : ℝ
  longitude : ℝ
  accuracy : Option ℝ := none

/-- Modelled from the spec: the coordinate range invariant (latitude in
−90..90, longitude in −180..180). -/
def coordInRange (c : Coordinate) : Prop :=
  -90 ≤ c.latitude ∧ c.latitude ≤ 90 ∧ -180 ≤ c.longitude ∧ c.longitude ≤ 180

/-- A geofence zone.  Field names follow the source's `LocationValidation`
model (`center`, `radius_meters`, `is_active`, `allow_mock_location`,
`strict_validation`); the spec calls this record a Zone. -/
structure Zone where
  id : ℕ
  center : Coordinate
  radius_meters : ℝ
  is_active : Bool := true
  allow_mock_location : Bool := false
  strict_validation : Bool := true

/-- Modelled from the spec: the rejection-reason vocabulary of the
validation verdict. -/
inductive RejectionReason where
  | OutsideAllZones
  | NoZonesConfigured
  | MockLocationRejected
  | AccuracyTooLow
  deriving DecidableEq, Repr

/-- Modelled from the spec: the only raised error of the validator. -/
inductive GeofenceError where
  | InvalidCoordinate
  deriving DecidableEq, Repr

/-- Modelled from the spec: the structured validation verdict. -/
structure ValidationVerdict where
  matched_zone_id : Option ℕ
  distance : Option ℝ
  inside_any_zone : Bool
  mock_location_detected : Bool
  accepted : Bool
  rejection_reason : Option RejectionReason

/-- Modelled from the spec: explicit validator configuration (the accuracy
threshold is a policy value, e.g. 50 m). -/
structure ValidatorConfig where
  maxAccuracyMeters : ℝ

/-- Modelled from the spec: degrees to radians. -/
noncomputable def toRadians (d : ℝ) : ℝ := d * Real.pi / 180

/-- Modelled from the spec: mean Earth radius, 6 371 000 m. -/
noncomputable def earthRadiusMeters : ℝ := 6371000

/-- Modelled from the spec: great-circle distance between two coordinates by
the haversine formula on a sphere of mean Earth radius. -/
noncomputable def haversineDistance (p q : Coordinate) : ℝ :=
  let phi1 := toRadians p.latitude
  let phi2 := toRadians q.latitude
  let dphi := toRadians (q.latitude - p.latitude)
  let dlam := toRadians (q.longitude - p.longitude)
  let a := Real.sin (dphi / 2) ^ 2 +
    Real.cos phi1 * Real.cos phi2 * Real.sin (dlam / 2) ^ 2
  2 * earthRadiusMeters * Real.arcsin (Real.sqrt a)

/-- Modelled from the spec: a zone "matches" a submission when it is active
and the haversine distance from the submission to its center is at most its
radius in meters. -/
def zoneMatches (c : Coordinate) (z : Zone) : Prop :=
  z.is_active = true ∧ haversineDistance c z.center ≤ z.radius_meters

/-- Modelled from the spec: the selection preorder among matching zones —
smaller distance first, ties broken by lower zone id. -/
def zoneBefore (c : Coordinate) (z w : Zone) : Prop :=
  haversineDistance c z.center < haversineDistance c w.center ∨
    (haversineDistance c z.center = haversineDistance c w.center ∧ z.id ≤ w.id)

open Classical in
/-- Modelled from the spec: of two matching zones, the preferred one —
smaller distance, ties broken by lower zone id. -/
noncomputable def preferredZone (c : Coordinate) (z w : Zone) : Zone :=
  if zoneBefore c z w then z else w

open Classical in
/-- Modelled from the spec: among the zones in the list whose center is
within their radius of the submission, select the one with the smallest
distance (tie-break: lowest zone id); `none` when no zone matches. -/
noncomputable def selectMatchedZone (c : Coordinate) : List Zone → Option Zone
  | [] => none
  | z :: zs =>
      let rest := selectMatchedZone c zs
      if haversineDistance c z.center ≤ z.radius_meters then
        match rest with
        | none => some z
        | some w => some (preferredZone c z w)
      else rest

/-- Modelled from the spec: minimum haversine distance from the submission
to any zone center in the list; `none` for the empty list. -/
noncomputable def minCenterDistance (c : Coordinate) : List Zone → Option ℝ
  | [] => none
  | z :: zs =>
      match minCenterDistance c zs with
      | none => some (haversineDistance c z.center)
      | some d => some (min (haversineDistance c z.center) d)

/-- Modelled from the spec: the matched zone of a validate call — inactive
zones are filtered out before matching, then the nearest matching zone is
selected. -/
noncomputable def matchedZone (c : Coordinate) (zones : List Zone) : Option Zone :=
  selectMatchedZone c (zones.filter fun z => z.is_active)

/-- Modelled from the spec: whether the submission's accuracy is present and
exceeds the configured maximum. -/
def accuracyExceeds (cfg : ValidatorConfig) (c : Coordinate) : Prop :=
  match c.accuracy with
  | none => False
  | some a => cfg.maxAccuracyMeters < a

open Classical in
/-- Modelled from the spec: the GeofenceValidator contract
`validate(submission_coordinate, is_mock_location, zones) -> ValidationVerdict`.
Out-of-range coordinates raise `InvalidCoordinate`; otherwise inactive zones
are filtered, the nearest matching zone is selected, and the mock-location
check, then the strict-accuracy check, then acceptance are applied in the
spec's order; with no match the verdict is `OutsideAllZones`, or
`NoZonesConfigured` when no zones exist. -/
noncomputable def validate (cfg : ValidatorConfig) (coord : Coordinate)
    (isMock : Bool) (zones : List Zone) :
    Except GeofenceError ValidationVerdict :=
  if coordInRange coord then
    let active := zones.filter fun z => z.is_active
    match selectMatchedZone coord active with
    | some z =>
        let d := haversineDistance coord z.center
        if isMock = true ∧ z.allow_mock_location = false then
          Except.ok
            { matched_zone_id := some z.id, distance := some d,
              inside_any_zone := true, mock_location_detected := isMock,
              accepted := false,
              rejection_reason := some RejectionReason.MockLocationRejected }
        else if z.strict_validation = true ∧ accuracyExceeds cfg coord then
          Except.ok
            { matched_zone_id := some z.id, distance := some d,
              inside_any_zone := true, mock_location_detected := isMock,
              accepted := false,
              rejection_reason := some RejectionReason.AccuracyTooLow }
        else
          Except.ok
            { matched_zone_id := some z.id, distance := some d,
              inside_any_zone := true, mock_location_detected := isMock,
              accepted := true, rejection_reason := none }
    | none =>
        match minCenterDistance coord active with
        | none =>
            Except.ok
              { matched_zone_id := none, distance := none,
                inside_any_zone := false, mock_location_detected := isMock,
                accepted := false,
                rejection_reason := some RejectionReason.NoZonesConfigured }
        | some d =>
            Except.ok
              { matched_zone_id := none, distance := some d,
                inside_any_zone := false, mock_location_detected := isMock,
                accepted := false,
                rejection_reason := some RejectionReason.OutsideAllZones }
  else Except.error GeofenceError.InvalidCoordinate

/-- Modelled from the spec: a sequence of validate calls against one shared
zone snapshot — the validator retains no state between calls, so a call
sequence is just the per-call function applied pointwise. -/
noncomputable def validateCalls (cfg : ValidatorConfig) (zones : List Zone)
    (calls : List (Coordinate × Bool)) :
    List (Except GeofenceError ValidationVerdict) :=
  calls.map fun call => validate cfg call.1 call.2 zones

/-- The `User` model of `src/app/models.py` (timestamps abstracted to ℕ). -/
structure User where
  id : Option ℕ := none
  employee_id : String
  name : String
  email : String
  department : String
  is_active : Bool := true
  created_at : ℕ
  updated_at : ℕ

/-- The `AttendanceRecord` model of `src/app/models.py`: decimals are
embedded as ℚ, datetimes as ℕ, the open JSON mapping
`gps_validation_data` as an association list, and the `user` relationship
as an embedded `User`.  Field defaults follow the source's
`Field(default=...)` declarations. -/
structure AttendanceRecord where
  id : Option ℕ := none
  user_id : ℕ
  photo_data : String
  photo_mime_type : String := "image/jpeg"
  latitude : ℚ
  longitude : ℚ
  location_accuracy : Option ℚ := none
  address : Option String := none
  is_mock_location : Bool := false
  gps_validation_data : Option (List (String × String)) := none
  description : String
  submitted_at : ℕ
  created_at : ℕ
  status : String := "pending"
  is_valid : Bool := true
  rejection_reason : Option String := none
  user : User

/-- Construction of an `AttendanceRecord` from a submission: only the
required fields are supplied, so every field with a source default
(`photo_mime_type`, `is_mock_location`, `status`, `is_valid`,
`rejection_reason`, ...) takes its declared default value. -/
def submitAttendance (user_id : ℕ) (photo_data : String)
    (latitude longitude : ℚ) (description : String)
    (submitted_at created_at : ℕ) (user : User) : AttendanceRecord :=
  { user_id := user_id, photo_data := photo_data, latitude := latitude,
    longitude := longitude, description := description,
    submitted_at := submitted_at, created_at := created_at, user := user }

/-- The `AttendanceRecordResponse` schema of `src/app/models.py`. -/
structure AttendanceRecordResponse where
  id : ℕ
  user_id : ℕ
  user_name : String
  user_employee_id : String
  latitude : ℚ
  longitude : ℚ
  address : Option String
  description : String
  is_mock_location : Bool
  status : String
  is_valid : Bool
  submitted_at : ℕ
  rejection_reason : Option String
  deriving DecidableEq

/-- `AttendanceRecordResponse.from_attendance_record` of
`src/app/models.py`: raises `ValueError` when the record id is `None`
(embedded as `Except.error`), otherwise copies the record's fields and the
related user's `name` and `employee_id` into the response. -/
def AttendanceRecordResponse.from_attendance_record (record : AttendanceRecord) :
    Except String AttendanceRecordResponse :=
  match record.id with
  | none => Except.error "Attendance record ID cannot be None"
  | some i =>
      Except.ok
        { id := i, user_id := record.user_id, user_name := record.user.name,
          user_employee_id := record.user.employee_id,
          latitude := record.latitude, longitude := record.longitude,
          address := record.address, description := record.description,
          is_mock_location := record.is_mock_location,
          status := record.status, is_valid := record.is_valid,
          submitted_at := record.submitted_at,
          rejection_reason := record.rejection_reason }

/-- An example configuration: maximum accepted accuracy 50 m. -/
noncomputable def cfg0 : ValidatorConfig := { maxAccuracyMeters := 50 }

/-- An example in-range coordinate with poor reported accuracy (100 m). -/
noncomputable def coordA : Coordinate :=
  { latitude := 10, longitude := 20, accuracy := some 100 }

/-- An example out-of-range coordinate (latitude 200). -/
noncomputable def badCoord : Coordinate := { latitude := 200, longitude := 0 }

/-- An active strict zone centered exactly at `coordA`, radius 5 m, mock
locations not allowed. -/
noncomputable def zoneA : Zone :=
  { id := 1, center := { latitude := 10, longitude := 20 }, radius_meters := 5 }

/-- An inactive zone centered exactly at `coordA`. -/
noncomputable def zoneB : Zone :=
  { id := 2, center := { latitude := 10, longitude := 20 }, radius_meters := 5,
    is_active := false }

/-- An active zone that cannot match: its radius is below any distance
(negative), giving a concrete zones-exist-but-none-match scenario. -/
noncomputable def zoneC : Zone :=
  { id := 3, center := { latitude := 10, longitude := 20 }, radius_meters := -1 }

/-- The verdict of validating `coordA` against `[zoneA]` with a mock
location. -/
noncomputable def vMockA : ValidationVerdict :=
  { matched_zone_id := some 1, distance := some 0, inside_any_zone := true,
    mock_location_detected := true, accepted := false,
    rejection_reason := some RejectionReason.MockLocationRejected }

/-- The verdict of validating `coordA` against `[zoneA]` with a real
location but poor accuracy. -/
noncomputable def vAccA : ValidationVerdict :=
  { matched_zone_id := some 1, distance := some 0, inside_any_zone := true,
    mock_location_detected := false, accepted := false,
    rejection_reason := some RejectionReason.AccuracyTooLow }

/-- The verdict of validating against a zone list with no active zone. -/
noncomputable def vNoZonesA : ValidationVerdict :=
  { matched_zone_id := none, distance := none, inside_any_zone := false,
    mock_location_detected := true, accepted := false,
    rejection_reason := some RejectionReason.NoZonesConfigured }

/-- An example user for response conversion. -/
def userA : User :=
  { id := some 1, employee_id := "E-1", name := "Ada", email := "ada@example.com",
    department := "Research", created_at := 0, updated_at := 0 }

/-- An example persisted attendance record (id assigned). -/
def recordA : AttendanceRecord :=
  { id := some 7, user_id := 1, photo_data := "photo-bytes", latitude := 10,
    longitude := 20, description := "morning check-in", submitted_at := 5,
    created_at := 5, user := userA }

/-! ### Properties of the haversine distance -/

lemma sin_half_sq_comm (x y : ℝ) :
    Real.sin (toRadians (x - y) / 2) ^ 2 = Real.sin (toRadians (y - x) / 2) ^ 2 := by
  have h : toRadians (x - y) / 2 = -(toRadians (y - x) / 2) := by
    simp only [toRadians]
    ring
  rw [h, Real.sin_neg]
  ring

lemma haversineDistance_comm (p q : Coordinate) :
    haversineDistance p q = haversineDistance q p := by
  simp only [haversineDistance]
  rw [sin_half_sq_comm q.latitude p.latitude,
    sin_half_sq_comm q.longitude p.longitude]
  ring_nf

lemma haversineDistance_eq_zero (p q : Coordinate)
    (hlat : p.latitude = q.latitude) (hlon : p.longitude = q.longitude) :
    haversineDistance p q = 0 := by
  simp [haversineDistance, toRadians, hlat, hlon]

lemma haversineDistance_self (p : Coordinate) : haversineDistance p p = 0 :=
  haversineDistance_eq_zero p p rfl rfl

/-! ### Properties of the matching-zone selection -/

lemma zoneBefore_refl (c : Coordinate) (z : Zone) : zoneBefore c z z :=
  Or.inr ⟨rfl, le_refl _⟩

lemma zoneBefore_total (c : Coordinate) (z w : Zone) :
    zoneBefore c z w ∨ zoneBefore c w z := by
  unfold zoneBefore
  rcases lt_trichotomy (haversineDistance c z.center) (haversineDistance c w.center) with h | h | h
  · exact Or.inl (Or.inl h)
  · rcases le_total z.id w.id with h2 | h2
    · exact Or.inl (Or.inr ⟨h, h2⟩)
    · exact Or.inr (Or.inr ⟨h.symm, h2⟩)
  · exact Or.inr (Or.inl h)

lemma zoneBefore_trans (c : Coordinate) (x y z : Zone) :
    zoneBefore c x y → zoneBefore c y z → zoneBefore c x z := by
  unfold zoneBefore
  rintro (h1 | ⟨he1, hi1⟩) (h2 | ⟨he2, hi2⟩)
  · exact Or.inl (h1.trans h2)
  · exact Or.inl (he2 ▸ h1)
  · exact Or.inl (he1 ▸ h2)
  · exact Or.inr ⟨he1.trans he2, hi1.trans hi2⟩

lemma preferredZone_eq_or (c : Coordinate) (z w : Zone) :
    preferredZone c z w = z ∨ preferredZone c z w = w := by
  unfold preferredZone
  split
  · exact Or.inl rfl
  · exact Or.inr rfl

lemma preferredZone_before_left (c : Coordinate) (z w : Zone) :
    zoneBefore c (preferredZone c z w) z := by
  unfold preferredZone
  split
  · exact zoneBefore_refl c z
  · rename_i h
    rcases zoneBefore_total c z w with h1 | h1
    · exact absurd h1 h
    · exact h1

lemma preferredZone_before_right (c : Coordinate) (z w : Zone) :
    zoneBefore c (preferredZone c z w) w := by
  unfold preferredZone
  split
  · assumption
  · exact zoneBefore_refl c w

lemma selectMatchedZone_none (c : Coordinate) :
    ∀ l : List Zone, selectMatchedZone c l = none →
      ∀ z ∈ l, ¬ haversineDistance c z.center ≤ z.radius_meters := by
  intro l
  induction l with
  | nil => intro _ z hz; simp at hz
  | cons z zs ih =>
    intro h w hw
    simp only [selectMatchedZone] at h
    split at h
    · rcases hrest : selectMatchedZone c zs with _ | v <;> rw [hrest] at h <;> simp at h
    · rename_i hcond
      rcases List.mem_cons.mp hw with rfl | hw2
      · exact hcond
      · exact ih h w hw2

lemma selectMatchedZone_some (c : Coordinate) :
    ∀ (l : List Zone) (m : Zone), selectMatchedZone c l = some m →
      m ∈ l ∧ haversineDistance c m.center ≤ m.radius_meters := by
  intro l
  induction l with
  | nil => intro m h; simp [selectMatchedZone] at h
  | cons z zs ih =>
    intro m h
    simp only [selectMatchedZone] at h
    split at h
    · rename_i hcond
      rcases hrest : selectMatchedZone c zs with _ | w <;> rw [hrest] at h
      · rw [Option.some_inj] at h
        exact ⟨h ▸ List.mem_cons_self z zs, h ▸ hcond⟩
      · rw [Option.some_inj] at h
        rcases preferredZone_eq_or c z w with hp | hp
        · rw [hp] at h
          exact ⟨h ▸ List.mem_cons_self z zs, h ▸ hcond⟩
        · rw [hp] at h
          rcases ih w hrest with ⟨hmem, hdist⟩
          exact ⟨h ▸ List.mem_cons_of_mem z hmem, h ▸ hdist⟩
    · rcases ih m h with ⟨hmem, hdist⟩
      exact ⟨List.mem_cons_of_mem z hmem, hdist⟩

lemma selectMatchedZone_min (c : Coordinate) :
    ∀ (l : List Zone) (m : Zone), selectMatchedZone c l = some m →
      ∀ z ∈ l, haversineDistance c z.center ≤ z.radius_meters → zoneBefore c m z := by
  intro l
  induction l with
  | nil => intro m h; simp [selectMatchedZone] at h
  | cons z zs ih =>
    intro m h t ht htd
    simp only [selectMatchedZone] at h
    split at h
    · rename_i hcond
      rcases hrest : selectMatchedZone c zs with _ | w <;> rw [hrest] at h <;>
        rw [Option.some_inj] at h
      · rcases List.mem_cons.mp ht with rfl | ht2
        · exact h ▸ zoneBefore_refl c t
        · exact absurd htd (selectMatchedZone_none c zs hrest t ht2)
      · rcases List.mem_cons.mp ht with rfl | ht2
        · exact h ▸ preferredZone_before_left c t w
        · exact h ▸ zoneBefore_trans c _ w t (preferredZone_before_right c z w)
            (ih w hrest t ht2 htd)
    · rename_i hcond
      rcases List.mem_cons.mp ht with rfl | ht2
      · exact absurd htd hcond
      · exact ih m h t ht2 htd

/-! ### Branch analysis of `validate` -/

lemma minCenterDistance_eq_none (c : Coordinate) (l : List Zone) :
    minCenterDistance c l = none ↔ l = [] := by
  cases l with
  | nil => simp [minCenterDistance]
  | cons z zs =>
    simp only [minCenterDistance]
    constructor
    · intro h
      split at h <;> simp at h
    · intro h
      simp at h

lemma validate_invalid_coord (cfg : ValidatorConfig) (c : Coordinate)
    (isMock : Bool) (zones : List Zone) (h : ¬ coordInRange c) :
    validate cfg c isMock zones = Except.error GeofenceError.InvalidCoordinate := by
  unfold validate
  rw [if_neg h]

lemma validate_matched_mock (cfg : ValidatorConfig) (c : Coordinate)
    (isMock : Bool) (zones : List Zone) (z : Zone)
    (hin : coordInRange c) (hm : matchedZone c zones = some z)
    (hcond : isMock = true ∧ z.allow_mock_location = false) :
    validate cfg c isMock zones =
      Except.ok ⟨some z.id, some (haversineDistance c z.center), true, isMock,
        false, some RejectionReason.MockLocationRejected⟩ := by
  unfold matchedZone at hm
  unfold validate
  rw [if_pos hin]
  dsimp only
  rw [hm]
  dsimp only
  rw [if_pos hcond]

lemma validate_matched_accuracy (cfg : ValidatorConfig) (c : Coordinate)
    (isMock : Bool) (zones : List Zone) (z : Zone)
    (hin : coordInRange c) (hm : matchedZone c zones = some z)
    (hno : ¬ (isMock = true ∧ z.allow_mock_location = false))
    (hcond : z.strict_validation = true ∧ accuracyExceeds cfg c) :
    validate cfg c isMock zones =
      Except.ok ⟨some z.id, some (haversineDistance c z.center), true, isMock,
        false, some RejectionReason.AccuracyTooLow⟩ := by
  unfold matchedZone at hm
  unfold validate
  rw [if_pos hin]
  dsimp only
  rw [hm]
  dsimp only
  rw [if_neg hno, if_pos hcond]

lemma validate_matched_accept (cfg : ValidatorConfig) (c : Coordinate)
    (isMock : Bool) (zones : List Zone) (z : Zone)
    (hin : coordInRange c) (hm : matchedZone c zones = some z)
    (hno : ¬ (isMock = true ∧ z.allow_mock_location = false))
    (hno2 : ¬ (z.strict_validation = true ∧ accuracyExceeds cfg c)) :
    validate cfg c isMock zones =
      Except.ok ⟨some z.id, some (haversineDistance c z.center), true, isMock,
        true, none⟩ := by
  unfold matchedZone at hm
  unfold validate
  rw [if_pos hin]
  dsimp only
  rw [hm]
  dsimp only
  rw [if_neg hno, if_neg hno2]

lemma validate_no_zones (cfg : ValidatorConfig) (c : Coordinate)
    (isMock : Bool) (zones : List Zone)
    (hin : coordInRange c) (hm : matchedZone c zones = none)
    (hempty : zones.filter (fun z => z.is_active) = []) :
    validate cfg c isMock zones =
      Except.ok ⟨none, none, false, isMock, false,
        some RejectionReason.NoZonesConfigured⟩ := by
  unfold matchedZone at hm
  unfold validate
  rw [if_pos hin]
  dsimp only
  rw [hm]
  dsimp only
  rw [show minCenterDistance c (zones.filter fun z => z.is_active) = none from
    (minCenterDistance_eq_none c _).mpr hempty]

lemma validate_outside (cfg : ValidatorConfig) (c : Coordinate)
    (isMock : Bool) (zones : List Zone) (d : ℝ)
    (hin : coordInRange c) (hm : matchedZone c zones = none)
    (hd : minCenterDistance c (zones.filter fun z => z.is_active) = some d) :
    validate cfg c isMock zones =
      Except.ok ⟨none, some d, false, isMock, false,
        some RejectionReason.OutsideAllZones⟩ := by
  unfold matchedZone at hm
  unfold validate
  rw [if_pos hin]
  dsimp only
  rw [hm]
  dsimp only
  rw [hd]

lemma minCenterDistance_of_ne_nil (c : Coordinate) (l : List Zone) (h : l ≠ []) :
    ∃ d, minCenterDistance c l = some d := by
  cases hmin : minCenterDistance c l with
  | none => exact absurd ((minCenterDistance_eq_none c l).mp hmin) h
  | some d => exact ⟨d, rfl⟩

lemma matchedZone_spec_some (c : Coordinate) (zones : List Zone) (m : Zone)
    (hm : matchedZone c zones = some m) :
    m ∈ zones ∧ zoneMatches c m ∧ ∀ z ∈ zones, zoneMatches c z → zoneBefore c m z := by
  unfold matchedZone at hm
  rcases selectMatchedZone_some c _ m hm with ⟨hmem, hdist⟩
  rw [List.mem_filter] at hmem
  refine ⟨hmem.1, ⟨by simpa using hmem.2, hdist⟩, ?_⟩
  intro z hz hmatch
  exact selectMatchedZone_min c _ m hm z
    (List.mem_filter.mpr ⟨hz, by simpa using hmatch.1⟩) hmatch.2

lemma matchedZone_spec_none (c : Coordinate) (zones : List Zone)
    (hm : matchedZone c zones = none) :
    ∀ z ∈ zones, ¬ zoneMatches c z := by
  intro z hz hmatch
  exact selectMatchedZone_none c _ hm z
    (List.mem_filter.mpr ⟨hz, by simpa using hmatch.1⟩) hmatch.2

lemma validate_ok_of_inRange (cfg : ValidatorConfig) (c : Coordinate)
    (isMock : Bool) (zones : List Zone) (hin : coordInRange c) :
    ∃ v, validate cfg c isMock zones = Except.ok v ∧
      (v.accepted = false → v.rejection_reason ≠ none) := by
  rcases hm : matchedZone c zones with _ | z
  · by_cases hfil : zones.filter (fun z => z.is_active) = []
    · exact ⟨_, validate_no_zones cfg c isMock zones hin hm hfil, by simp⟩
    · rcases minCenterDistance_of_ne_nil c _ hfil with ⟨d, hd⟩
      exact ⟨_, validate_outside cfg c isMock zones d hin hm hd, by simp⟩
  · by_cases h1 : isMock = true ∧ z.allow_mock_location = false
    · exact ⟨_, validate_matched_mock cfg c isMock zones z hin hm h1, by simp⟩
    · by_cases h2 : z.strict_validation = true ∧ accuracyExceeds cfg c
      · exact ⟨_, validate_matched_accuracy cfg c isMock zones z hin hm h1 h2, by simp⟩
      · exact ⟨_, validate_matched_accept cfg c isMock zones z hin hm h1 h2, by simp⟩

lemma validate_error_iff (cfg : ValidatorConfig) (c : Coordinate)
    (isMock : Bool) (zones : List Zone) (e : GeofenceError) :
    validate cfg c isMock zones = Except.error e ↔
      (¬ coordInRange c ∧ e = GeofenceError.InvalidCoordinate) := by
  constructor
  · intro h
    by_cases hin : coordInRange c
    · rcases validate_ok_of_inRange cfg c isMock zones hin with ⟨v, hv, _⟩
      rw [hv] at h
      exact absurd h (by simp)
    · rw [validate_invalid_coord cfg c isMock zones hin] at h
      cases e
      exact ⟨hin, rfl⟩
  · rintro ⟨hin, rfl⟩
    exact validate_invalid_coord cfg c isMock zones hin

lemma validate_ok_inRange (cfg : ValidatorConfig) (c : Coordinate)
    (isMock : Bool) (zones : List Zone) (v : ValidationVerdict)
    (hok : validate cfg c isMock zones = Except.ok v) : coordInRange c := by
  by_contra hin
  rw [validate_invalid_coord cfg c isMock zones hin] at hok
  exact absurd hok (by simp)

lemma validate_matched_zone_id (cfg : ValidatorConfig) (c : Coordinate)
    (isMock : Bool) (zones : List Zone) (v : ValidationVerdict)
    (hok : validate cfg c isMock zones = Except.ok v) :
    v.matched_zone_id = Option.map Zone.id (matchedZone c zones) := by
  have hin : coordInRange c := validate_ok_inRange cfg c isMock zones v hok
  rcases hm : matchedZone c zones with _ | z
  · by_cases hfil : zones.filter (fun z => z.is_active) = []
    · rw [validate_no_zones cfg c isMock zones hin hm hfil] at hok
      simp only [Except.ok.injEq] at hok
      subst hok
      simp
    · rcases minCenterDistance_of_ne_nil c _ hfil with ⟨d, hd⟩
      rw [validate_outside cfg c isMock zones d hin hm hd] at hok
      simp only [Except.ok.injEq] at hok
      subst hok
      simp
  · by_cases h1 : isMock = true ∧ z.allow_mock_location = false
    · rw [validate_matched_mock cfg c isMock zones z hin hm h1] at hok
      simp only [Except.ok.injEq] at hok
      subst hok
      simp
    · by_cases h2 : z.strict_validation = true ∧ accuracyExceeds cfg c
      · rw [validate_matched_accuracy cfg c isMock zones z hin hm h1 h2] at hok
        simp only [Except.ok.injEq] at hok
        subst hok
        simp
      · rw [validate_matched_accept cfg c isMock zones z hin hm h1 h2] at hok
        simp only [Except.ok.injEq] at hok
        subst hok
        simp

/-! ### Concrete evaluations -/

lemma coordA_inRange : coordInRange coordA := by
  norm_num [coordInRange, coordA]

lemma badCoord_not_inRange : ¬ coordInRange badCoord := by
  intro h
  have h2 := h.2.1
  norm_num [badCoord] at h2

lemma hdistA : haversineDistance coordA zoneA.center = 0 :=
  haversineDistance_eq_zero _ _ rfl rfl

lemma filterA : List.filter (fun z => z.is_active) [zoneA] = [zoneA] := by
  simp [zoneA]

lemma matchedZone_A : matchedZone coordA [zoneA] = some zoneA := by
  have hcond : haversineDistance coordA zoneA.center ≤ zoneA.radius_meters := by
    rw [hdistA]
    norm_num [zoneA]
  unfold matchedZone
  rw [filterA]
  simp [selectMatchedZone, hcond]

lemma validateA_mock : validate cfg0 coordA true [zoneA] = Except.ok vMockA := by
  rw [validate_matched_mock cfg0 coordA true [zoneA] zoneA coordA_inRange
    matchedZone_A ⟨rfl, rfl⟩, hdistA]
  rfl

lemma accExceedsA : accuracyExceeds cfg0 coordA := by
  norm_num [accuracyExceeds, coordA, cfg0]

lemma validateA_acc : validate cfg0 coordA false [zoneA] = Except.ok vAccA := by
  rw [validate_matched_accuracy cfg0 coordA false [zoneA] zoneA coordA_inRange
    matchedZone_A (by simp) ⟨rfl, accExceedsA⟩, hdistA]
  rfl

lemma filterB : List.filter (fun z => z.is_active) [zoneB] = [] := by
  simp [zoneB]

lemma matchedZone_B : matchedZone coordA [zoneB] = none := by
  unfold matchedZone
  rw [filterB]
  simp [selectMatchedZone]

lemma validateB : validate cfg0 coordA true [zoneB] = Except.ok vNoZonesA :=
  validate_no_zones cfg0 coordA true [zoneB] coordA_inRange matchedZone_B filterB

lemma hdistC : haversineDistance coordA zoneC.center = 0 :=
  haversineDistance_eq_zero _ _ rfl rfl

lemma filterC : List.filter (fun z => z.is_active) [zoneC] = [zoneC] := by
  simp [zoneC]

lemma matchedZone_C : matchedZone coordA [zoneC] = none := by
  have hcond : ¬ haversineDistance coordA zoneC.center ≤ zoneC.radius_meters := by
    rw [hdistC]
    norm_num [zoneC]
  unfold matchedZone
  rw [filterC]
  simp [selectMatchedZone, hcond]

lemma minDistC :
    minCenterDistance coordA (List.filter (fun z => z.is_active) [zoneC]) =
      some (haversineDistance coordA zoneC.center) := by
  rw [filterC]
  simp [minCenterDistance]

lemma validateC : validate cfg0 coordA true [zoneC] =
    Except.ok ⟨none, some (haversineDistance coordA zoneC.center), false, true,
      false, some RejectionReason.OutsideAllZones⟩ :=
  validate_outside cfg0 coordA true [zoneC] _ coordA_inRange matchedZone_C minDistC

/-! ### Claim theorems -/

/-- Claim C1: for every submitted coordinate and every sequence of zones, a
zone matches exactly when it is active and the haversine distance from the
submission to its center is at most its radius, and the matched zone of a
validate call is the matching zone with the smallest distance, ties broken
by the lowest zone id. -/
theorem validate_selects_nearest_matching_zone (cfg : ValidatorConfig)
    (c : Coordinate) (zones : List Zone) :
    (∀ m, matchedZone c zones = some m →
      m ∈ zones ∧ zoneMatches c m ∧ ∀ z ∈ zones, zoneMatches c z → zoneBefore c m z) ∧
    (matchedZone c zones = none → ∀ z ∈ zones, ¬ zoneMatches c z) ∧
    (∀ isMock v, validate cfg c isMock zones = Except.ok v →
      v.matched_zone_id = Option.map Zone.id (matchedZone c zones)) :=
  ⟨fun m hm => matchedZone_spec_some c zones m hm,
   matchedZone_spec_none c zones,
   fun isMock v hok => validate_matched_zone_id cfg c isMock zones v hok⟩

/-- Witness for C1 at a concrete input: `zoneA` is centered at `coordA`, so
it matches, is selected, and its id is reported in the verdict. -/
theorem validate_selects_nearest_matching_zone_witness :
    (zoneA ∈ [zoneA] ∧ zoneMatches coordA zoneA ∧ zoneBefore coordA zoneA zoneA) ∧
    vMockA.matched_zone_id = Option.map Zone.id (matchedZone coordA [zoneA]) := by
  have h := validate_selects_nearest_matching_zone cfg0 coordA [zoneA]
  have h1 := h.1 zoneA matchedZone_A
  exact ⟨⟨h1.1, h1.2.1, h1.2.2 zoneA (List.mem_singleton_self zoneA) h1.2.1⟩,
    h.2.2 true vMockA validateA_mock⟩

/-- Claim C2: a zone whose active flag is false is never the matched zone of
a validate call, regardless of distance. -/
theorem inactive_zone_never_matched (cfg : ValidatorConfig) (c : Coordinate)
    (isMock : Bool) (zones : List Zone) (z : Zone) (v : ValidationVerdict)
    (hz : z.is_active = false) :
    matchedZone c zones ≠ some z ∧
    (validate cfg c isMock zones = Except.ok v →
      v.matched_zone_id = Option.map Zone.id (matchedZone c zones)) := by
  constructor
  · intro hm
    have hact := (matchedZone_spec_some c zones z hm).2.1.1
    rw [hz] at hact
    exact Bool.false_ne_true hact
  · exact validate_matched_zone_id cfg c isMock zones v

/-- Witness for C2 at a concrete input: the inactive `zoneB`, although
centered exactly at the submission, is not matched. -/
theorem inactive_zone_never_matched_witness :
    matchedZone coordA [zoneB] ≠ some zoneB ∧
    vNoZonesA.matched_zone_id = Option.map Zone.id (matchedZone coordA [zoneB]) := by
  have h := inactive_zone_never_matched cfg0 coordA true [zoneB] zoneB vNoZonesA rfl
  exact ⟨h.1, h.2 validateB⟩

/-- Claim C3: for a valid coordinate and an empty zone list, the verdict is
`accepted = false` with `rejection_reason = NoZonesConfigured`; when zones
exist but none matches the reason is the distinct `OutsideAllZones`. -/
theorem empty_zone_list_no_zones_configured (cfg : ValidatorConfig)
    (c : Coordinate) (isMock : Bool) (hin : coordInRange c) :
    validate cfg c isMock [] =
      Except.ok ⟨none, none, false, isMock, false,
        some RejectionReason.NoZonesConfigured⟩ ∧
    (∀ zones v z, z ∈ zones → z.is_active = true →
      matchedZone c zones = none →
      validate cfg c isMock zones = Except.ok v →
      v.accepted = false ∧ v.rejection_reason = some RejectionReason.OutsideAllZones) ∧
    RejectionReason.NoZonesConfigured ≠ RejectionReason.OutsideAllZones := by
  refine ⟨validate_no_zones cfg c isMock [] hin
    (by simp [matchedZone, selectMatchedZone]) rfl, ?_, by simp⟩
  intro zones v z hz hact hm hok
  have hfil : zones.filter (fun w => w.is_active) ≠ [] := by
    intro hempty
    have hmem : z ∈ zones.filter (fun w => w.is_active) :=
      List.mem_filter.mpr ⟨hz, by simpa using hact⟩
    rw [hempty] at hmem
    exact absurd hmem (List.not_mem_nil z)
  rcases minCenterDistance_of_ne_nil c _ hfil with ⟨d, hd⟩
  rw [validate_outside cfg c isMock zones d hin hm hd] at hok
  simp only [Except.ok.injEq] at hok
  subst hok
  exact ⟨rfl, rfl⟩

/-- Witness for C3 at concrete inputs: the empty list yields
`NoZonesConfigured`, and the non-matching active `zoneC` yields
`OutsideAllZones`. -/
theorem empty_zone_list_no_zones_configured_witness :
    validate cfg0 coordA true [] =
      Except.ok ⟨none, none, false, true, false,
        some RejectionReason.NoZonesConfigured⟩ ∧
    (ValidationVerdict.mk none (some (haversineDistance coordA zoneC.center))
        false true false (some RejectionReason.OutsideAllZones)).rejection_reason =
      some RejectionReason.OutsideAllZones ∧
    RejectionReason.NoZonesConfigured ≠ RejectionReason.OutsideAllZones := by
  have h := empty_zone_list_no_zones_configured cfg0 coordA true coordA_inRange
  have h2 := h.2.1 [zoneC] _ zoneC (List.mem_singleton_self zoneC) rfl
    matchedZone_C validateC
  exact ⟨h.1, h2.2, h.2.2⟩

/-- Claim C4: when a zone matches, the submission is flagged as a mock
location and the matched zone does not allow mock locations, the verdict is
rejected with reason `MockLocationRejected`. -/
theorem mock_location_rejected_on_matched_zone (cfg : ValidatorConfig)
    (c : Coordinate) (zones : List Zone) (m : Zone) (v : ValidationVerdict)
    (hm : matchedZone c zones = some m)
    (hallow : m.allow_mock_location = false)
    (hok : validate cfg c true zones = Except.ok v) :
    v.accepted = false ∧
    v.rejection_reason = some RejectionReason.MockLocationRejected := by
  have hin := validate_ok_inRange cfg c true zones v hok
  rw [validate_matched_mock cfg c true zones m hin hm ⟨rfl, hallow⟩] at hok
  simp only [Except.ok.injEq] at hok
  subst hok
  exact ⟨rfl, rfl⟩

/-- Witness for C4 at a concrete input: `zoneA` matches `coordA`, mock
locations are not allowed, and the mock submission is rejected. -/
theorem mock_location_rejected_on_matched_zone_witness :
    vMockA.accepted = false ∧
    vMockA.rejection_reason = some RejectionReason.MockLocationRejected :=
  mock_location_rejected_on_matched_zone cfg0 coordA [zoneA] zoneA vMockA
    matchedZone_A rfl validateA_mock

/-- Counterexample to C5 as stated: at `coordA` against `[zoneA]` the
matched zone is strict and the accuracy (100 m) exceeds the configured
maximum (50 m), yet with a mock location the verdict's reason is
`MockLocationRejected`, not `AccuracyTooLow`, because the mock-location
check takes precedence. -/
theorem strict_accuracy_claim_counterexample :
    matchedZone coordA [zoneA] = some zoneA ∧
    zoneA.strict_validation = true ∧
    accuracyExceeds cfg0 coordA ∧
    validate cfg0 coordA true [zoneA] = Except.ok vMockA ∧
    vMockA.accepted = false ∧
    vMockA.rejection_reason ≠ some RejectionReason.AccuracyTooLow :=
  ⟨matchedZone_A, rfl, accExceedsA, validateA_mock, rfl, by simp [vMockA]⟩

/-- Claim C5 (amended): when a zone matches, the matched zone is strict, the
accuracy is present and exceeds the configured maximum, and the
mock-location rejection does not apply, the verdict is rejected with reason
`AccuracyTooLow`. -/
theorem accuracy_too_low_on_matched_zone (cfg : ValidatorConfig)
    (c : Coordinate) (isMock : Bool) (zones : List Zone) (m : Zone)
    (v : ValidationVerdict)
    (hm : matchedZone c zones = some m)
    (hstrict : m.strict_validation = true)
    (hacc : accuracyExceeds cfg c)
    (hnomock : ¬ (isMock = true ∧ m.allow_mock_location = false))
    (hok : validate cfg c isMock zones = Except.ok v) :
    v.accepted = false ∧
    v.rejection_reason = some RejectionReason.AccuracyTooLow := by
  have hin := validate_ok_inRange cfg c isMock zones v hok
  rw [validate_matched_accuracy cfg c isMock zones m hin hm hnomock
    ⟨hstrict, hacc⟩] at hok
  simp only [Except.ok.injEq] at hok
  subst hok
  exact ⟨rfl, rfl⟩

/-- Witness for the amended C5 at a concrete input: a real (non-mock)
submission at `coordA` with accuracy 100 m in the strict `zoneA` is rejected
for accuracy. -/
theorem accuracy_too_low_on_matched_zone_witness :
    vAccA.accepted = false ∧
    vAccA.rejection_reason = some RejectionReason.AccuracyTooLow :=
  accuracy_too_low_on_matched_zone cfg0 coordA false [zoneA] zoneA vAccA
    matchedZone_A rfl accExceedsA (by simp) validateA_acc

/-- Claim C6: `validate` fails with an error exactly on out-of-range
coordinates (and then only with `InvalidCoordinate`); for every in-range
coordinate it returns a verdict, and every rejected verdict carries a
rejection reason. -/
theorem invalid_coordinate_only_error (cfg : ValidatorConfig) (c : Coordinate)
    (isMock : Bool) (zones : List Zone) :
    (∀ e, validate cfg c isMock zones = Except.error e ↔
      (¬ coordInRange c ∧ e = GeofenceError.InvalidCoordinate)) ∧
    (coordInRange c → ∃ v, validate cfg c isMock zones = Except.ok v ∧
      (v.accepted = false → v.rejection_reason ≠ none)) :=
  ⟨fun e => validate_error_iff cfg c isMock zones e,
   fun hin => validate_ok_of_inRange cfg c isMock zones hin⟩

/-- Witness for C6 at a concrete input: latitude 200 is out of range and
raises `InvalidCoordinate`. -/
theorem invalid_coordinate_only_error_witness :
    validate cfg0 badCoord true [] = Except.error GeofenceError.InvalidCoordinate :=
  ((invalid_coordinate_only_error cfg0 badCoord true []).1
    GeofenceError.InvalidCoordinate).mpr ⟨badCoord_not_inRange, rfl⟩

/-- Claim C7: the haversine distance is symmetric in its two arguments, and
a coordinate identical to the center of an active zone is at distance 0 and
matches whenever the zone's radius is positive. -/
theorem haversine_symmetric_and_zero_at_center :
    (∀ A B : Coordinate, haversineDistance A B = haversineDistance B A) ∧
    (∀ z : Zone, z.is_active = true → 0 < z.radius_meters →
      haversineDistance z.center z.center = 0 ∧ zoneMatches z.center z) := by
  refine ⟨haversineDistance_comm, fun z hact hrad => ?_⟩
  have h0 := haversineDistance_self z.center
  exact ⟨h0, hact, by rw [h0]; exact le_of_lt hrad⟩

/-- Witness for C7 at a concrete input: `zoneA` is active with radius 5 m,
so its own center is at distance 0 and matches. -/
theorem haversine_symmetric_and_zero_at_center_witness :
    haversineDistance zoneA.center zoneA.center = 0 ∧ zoneMatches zoneA.center zoneA :=
  haversine_symmetric_and_zero_at_center.2 zoneA rfl
    (by rw [show zoneA.radius_meters = 5 from rfl]; norm_num)

/-- Claim C8: the validator is pure and stateless — in any sequence of
validate calls sharing one zone snapshot, each call's verdict is exactly the
single-call function of that call's own inputs, so identical inputs give
identical verdicts and no state or mutation carries between calls. -/
theorem validate_stateless_calls (cfg : ValidatorConfig) (zones : List Zone)
    (calls : List (Coordinate × Bool)) (i : ℕ) (call : Coordinate × Bool)
    (h : calls[i]? = some call) :
    (validateCalls cfg zones calls)[i]? =
      some (validate cfg call.1 call.2 zones) := by
  simp [validateCalls, h]

/-- Witness for C8 at a concrete input: a one-call sequence. -/
theorem validate_stateless_calls_witness :
    (validateCalls cfg0 [zoneA] [(coordA, true)])[0]? =
      some (validate cfg0 coordA true [zoneA]) :=
  validate_stateless_calls cfg0 [zoneA] [(coordA, true)] 0 (coordA, true) rfl

/-- Claim C9: `from_attendance_record` fails exactly when the record's id is
`None`, and otherwise returns a response copying the record's fields and the
related user's name and employee id. -/
theorem from_attendance_record_roundtrip (record : AttendanceRecord) :
    ((∃ msg, AttendanceRecordResponse.from_attendance_record record =
        Except.error msg) ↔ record.id = none) ∧
    (∀ i, record.id = some i →
      AttendanceRecordResponse.from_attendance_record record =
        Except.ok ⟨i, record.user_id, record.user.name, record.user.employee_id,
          record.latitude, record.longitude, record.address, record.description,
          record.is_mock_location, record.status, record.is_valid,
          record.submitted_at, record.rejection_reason⟩) := by
  constructor
  · constructor
    · rintro ⟨msg, hmsg⟩
      unfold AttendanceRecordResponse.from_attendance_record at hmsg
      cases hid : record.id with
      | none => rfl
      | some i =>
        rw [hid] at hmsg
        exact absurd hmsg (by simp)
    · intro hid
      refine ⟨"Attendance record ID cannot be None", ?_⟩
      unfold AttendanceRecordResponse.from_attendance_record
      rw [hid]
  · intro i hid
    unfold AttendanceRecordResponse.from_attendance_record
    rw [hid]

/-- Witness for C9 at a concrete input: the persisted `recordA` (id 7)
converts to the expected response. -/
theorem from_attendance_record_roundtrip_witness :
    AttendanceRecordResponse.from_attendance_record recordA =
      Except.ok ⟨7, recordA.user_id, recordA.user.name, recordA.user.employee_id,
        recordA.latitude, recordA.longitude, recordA.address, recordA.description,
        recordA.is_mock_location, recordA.status, recordA.is_valid,
        recordA.submitted_at, recordA.rejection_reason⟩ :=
  (from_attendance_record_roundtrip recordA).2 7 rfl

/-- Claim C10: an attendance record constructed from a submission, without
explicit values for its status fields, starts as `status = "pending"`,
`is_valid = true`, `rejection_reason = none`, `is_mock_location = false`. -/
theorem attendance_record_default_status (user_id : ℕ) (photo : String)
    (lat lon : ℚ) (desc : String) (sub cre : ℕ) (u : User) :
    (submitAttendance user_id photo lat lon desc sub cre u).status = "pending" ∧
    (submitAttendance user_id photo lat lon desc sub cre u).is_valid = true ∧
    (submitAttendance user_id photo lat lon desc sub cre u).rejection_reason = none ∧
    (submitAttendance user_id photo lat lon desc sub cre u).is_mock_location = false :=
  ⟨rfl, rfl, rfl, rfl⟩
